import Mathlib

/-!
Verification development for the PDF_reporting pipeline (src/main.py).

The file shallowly embeds the data-normalization and report-composition
pipeline of `main.py`: column type coercion (`correct_dtypes`), the MTD/YTD
time-window filters (`mtd_sales_per_dealer`, `ytd_sales_per_dealer`), the
grouped aggregations and derived ratios of `generate_pdf_report`, the
per-dealer detail tables with the derived `container` column and text
truncation (`truncate_text`), and the top-level run (`main`).

Modelling conventions:
* pandas cell values are the inductive `Value`: a string, an exact rational
  number (machine floats are idealized as `ℚ`; the int/float dtype width is
  not tracked), the float missing marker NaN, a timestamp, or the missing
  timestamp NaT.
* float division is modelled with `FloatVal`, which records the IEEE
  behaviour pandas inherits from numpy: division by zero yields `+inf`,
  `-inf` or `nan` and never raises.
* `Series.round(0).astype(int)`, `round(x, 2)` and `.round(2)` use
  round-half-to-even (`bround`, `round2q`), as numpy and Python 3 do.
* fallible Python code (KeyError on column access, TypeError on operators)
  is embedded with `Option`/`Except`.
-/

set_option maxRecDepth 10000

/-- A calendar timestamp: year, month, day, plus the time of day (`time`,
an abstract rational so that `datetime.now()` keeping hour/minute/second in
`current_date.replace(day=1)` is observable). Ordered lexicographically by
`dtLe`. -/
structure DateTime where
  year : ℤ
  month : ℕ
  day : ℕ
  time : ℚ
deriving DecidableEq

/-- A pandas cell value. `vNum` carries both int-typed and float-typed
numbers as exact rationals; `vNaN` is the float missing value; `vNaT` the
missing timestamp. -/
inductive Value where
  | vStr (s : String)
  | vNum (q : ℚ)
  | vNaN
  | vDate (d : DateTime)
  | vNaT
deriving DecidableEq

/-- `pd.isna` on a scalar: true exactly on the missing markers. -/
def isNA : Value → Bool
  | Value.vNaN => true
  | Value.vNaT => true
  | _ => false

/-- Floor of a rational, computed with `Int.fdiv` so that kernel
evaluation (`decide`) is cheap. -/
def floorQ (q : ℚ) : ℤ := Int.fdiv q.num (q.den : ℤ)

/-- Round half to even to an integer: the semantics of
`Series.round(0).astype(int)` (numpy rounding) used on the aggregate sums
in `generate_pdf_report`. -/
def bround (q : ℚ) : ℤ :=
  if q - (floorQ q : ℚ) < 1/2 then floorQ q
  else if 1/2 < q - (floorQ q : ℚ) then floorQ q + 1
  else if floorQ q % 2 = 0 then floorQ q else floorQ q + 1

/-- Round half to even at 2 decimal places: `.round(2)` / `round(x, 2)`. -/
def round2q (q : ℚ) : ℚ := (bround (q * 100) : ℚ) / 100

/-- Result of a float computation: finite, one of the two infinities, or
NaN. Pandas margin ratios live here because the code divides without a
zero-guard. -/
inductive FloatVal where
  | fin (q : ℚ)
  | pinf
  | ninf
  | nan
deriving DecidableEq

/-- numpy float division, as pandas applies it elementwise: division by
zero silently yields `±inf` or `nan` (for `0/0`); it never raises. -/
def fdiv (a b : ℚ) : FloatVal :=
  if b ≠ 0 then FloatVal.fin (a / b)
  else if 0 < a then FloatVal.pinf
  else if a < 0 then FloatVal.ninf
  else FloatVal.nan

/-- Multiplication by the positive literal `100` (the `* 100` of the
margin-percent formulas), extended to infinities and NaN. -/
def times100 : FloatVal → FloatVal
  | FloatVal.fin q => FloatVal.fin (q * 100)
  | FloatVal.pinf => FloatVal.pinf
  | FloatVal.ninf => FloatVal.ninf
  | FloatVal.nan => FloatVal.nan

/-- `.round(2)` on a float column: rounds finite values, fixes `±inf` and
`nan` (numpy `round` leaves them unchanged). -/
def froundTo2 : FloatVal → FloatVal
  | FloatVal.fin q => FloatVal.fin (round2q q)
  | FloatVal.pinf => FloatVal.pinf
  | FloatVal.ninf => FloatVal.ninf
  | FloatVal.nan => FloatVal.nan

/-- Character-level length of a string (all pipeline strings are plain
text, where Python `len` counts characters). -/
def strLen (s : String) : ℕ := s.data.length

/-- Python slicing `s[:n]`: the first `n` characters. -/
def strTake (s : String) (n : ℕ) : String := String.mk (s.data.take n)

/-- Split a character list on a separator character (the character-level
semantics of Python `split` / `String.splitOn` for one-character
separators). -/
def splitOnChar (c : Char) : List Char → List (List Char)
  | [] => [[]]
  | x :: rest =>
    if x = c then [] :: splitOnChar c rest
    else
      match splitOnChar c rest with
      | [] => [[x]]
      | h :: t => (x :: h) :: t

/-- Decimal value of a digit list; `none` on a non-digit. -/
def digitsVal (cs : List Char) : Option ℕ :=
  cs.foldl (fun acc c =>
    match acc with
    | none => none
    | some n => if 48 ≤ c.toNat && c.toNat ≤ 57 then
        some (n * 10 + (c.toNat - 48))
      else none) (some 0)

/-- Parse a nonempty all-digit character list as a natural number. -/
def digitsToNat (cs : List Char) : Option ℕ :=
  if cs.isEmpty then none else digitsVal cs

/-- ASCII whitespace test for trimming. -/
def isSpaceChar (c : Char) : Bool :=
  c = ' ' || c = '\t' || c = '\n' || c = '\r'

/-- Strip surrounding whitespace (Python `str.strip`, which `pd.to_numeric`
applies to string inputs). -/
def trimChars (cs : List Char) : List Char :=
  ((cs.dropWhile isSpaceChar).reverse.dropWhile isSpaceChar).reverse

/-- Gregorian leap year. -/
def isLeap (y : ℕ) : Bool := (y % 4 = 0 && y % 100 ≠ 0) || y % 400 = 0

/-- Days in a month, for validating `%d/%m/%Y` parses. -/
def daysInMonth (y m : ℕ) : ℕ :=
  if m = 2 then (if isLeap y then 29 else 28)
  else if m = 4 || m = 6 || m = 9 || m = 11 then 30
  else 31

/-- Parse a string in the `%d/%m/%Y` format used by
`pd.to_datetime(..., format='%d/%m/%Y')`: three `/`-separated decimal
fields, validated as a real calendar date. -/
def parseDMY (s : String) : Option DateTime :=
  match splitOnChar '/' s.data with
  | [ds, ms, ys] =>
    match digitsToNat ds, digitsToNat ms, digitsToNat ys with
    | some d, some m, some y =>
      if 1 ≤ m && m ≤ 12 && 1 ≤ d && d ≤ daysInMonth y m then
        some { year := (y : ℤ), month := m, day := d, time := 0 }
      else none
    | _, _, _ => none
  | _ => none

/-- One cell of `pd.to_datetime(col, format='%d/%m/%Y', errors='coerce')`
(src/main.py line 113). With `errors='coerce'` the conversion is per value:
a parseable string becomes a timestamp, an existing timestamp passes
through, and every other value becomes `NaT`. The call does not raise, so
the `except` fallback on line 115 (`astype(str)`) is dead code. -/
def to_datetime_one (v : Value) : Value :=
  match v with
  | Value.vStr s =>
    match parseDMY s with
    | some d => Value.vDate d
    | none => Value.vNaT
  | Value.vDate d => Value.vDate d
  | _ => Value.vNaT

/-- Parse a decimal numeric literal the way `pd.to_numeric` parses a
string: optional surrounding whitespace, optional sign, digits with an
optional single decimal point. (Scientific notation and the textual
`nan`/`inf` literals are not modelled; no claim exercises them.) -/
def parse_decimal (s : String) : Option ℚ :=
  match trimChars s.data with
  | [] => none
  | c :: rest =>
    let sign : ℚ := if c = '-' then -1 else 1
    let core : List Char :=
      if c = '-' || c = '+' then rest else c :: rest
    match splitOnChar '.' core with
    | [intPart] =>
      match digitsToNat intPart with
      | some n => some (sign * (n : ℚ))
      | none => none
    | [intPart, fracPart] =>
      if intPart.isEmpty && fracPart.isEmpty then none
      else
        match (if intPart.isEmpty then some 0 else digitsToNat intPart),
              (if fracPart.isEmpty then some 0 else digitsToNat fracPart) with
        | some i, some f =>
          some (sign * ((i : ℚ) + (f : ℚ) / ((10 : ℚ) ^ fracPart.length)))
        | _, _ => none
    | _ => none

/-- One cell under `pd.to_numeric(col, errors='raise')`: numbers and the
float NaN succeed (NaN passes through), strings succeed iff they are
numeric literals, timestamps raise (`none`). -/
def to_numeric_one (v : Value) : Option Value :=
  match v with
  | Value.vNum q => some (Value.vNum q)
  | Value.vNaN => some Value.vNaN
  | Value.vStr s =>
    match parse_decimal s with
    | some q => some (Value.vNum q)
    | none => none
  | Value.vDate _ => none
  | Value.vNaT => none

/-- The `downcast` argument of `pd.to_numeric` (lines 119 and 123). -/
inductive Downcast where
  | integer
  | float
deriving DecidableEq

/-- `pd.to_numeric(col, errors='raise', downcast=d)` over a whole column:
`none` models the raised exception. Per pandas semantics the `downcast`
argument is applied only after the conversion to numeric values has
succeeded and narrows the storage dtype; it never affects whether the
conversion raises, and at `ℚ` precision it does not change any value.
Hence the result does not depend on `d`. -/
def to_numeric (_d : Downcast) (col : List Value) : Option (List Value) :=
  col.mapM to_numeric_one

/-- Python `str()` of an integer-valued or decimal rational, used by
`astype(str)` and by `str(item)` at the truncation call site. A rational
whose denominator is not a power of ten (unreachable from the pipeline's
arithmetic) is printed as a fraction. -/
def decStr (q : ℚ) : String :=
  if q.den = 1 then toString q.num
  else
    match (List.range 31).find? (fun k => (q * (10 : ℚ) ^ k).den = 1) with
    | some k =>
      let n := (q * (10 : ℚ) ^ k).num
      let sign := if n < 0 then "-" else ""
      let a := n.natAbs
      let fracDigits := toString (a % 10 ^ k)
      sign ++ toString (a / 10 ^ k) ++ "." ++
        String.mk (List.replicate (k - strLen fracDigits) '0') ++ fracDigits
    | none => toString q.num ++ "/" ++ toString q.den

/-- Zero-padded two-digit rendering for timestamp components. -/
def pad2 (n : ℕ) : String := if n < 10 then "0" ++ toString n else toString n

/-- Python `str()` of a cell value. `str` of a string is itself; NaN prints
as `nan` (this is how missing values in a string column become the literal
group key `"nan"` after `astype(str)`); NaT prints as `NaT`. The int/float
dtype width is not tracked, so whole-valued floats print without `.0`. -/
def pyStr : Value → String
  | Value.vStr s => s
  | Value.vNum q => decStr q
  | Value.vNaN => "nan"
  | Value.vDate d => toString d.year ++ "-" ++ pad2 d.month ++ "-" ++ pad2 d.day
  | Value.vNaT => "NaT"

/-- `col.astype(str)` (lines 115 and 126): elementwise Python `str()`. -/
def astype_str (col : List Value) : List Value :=
  col.map (fun v => Value.vStr (pyStr v))

/-- Body of the `correct_dtypes` loop (src/main.py lines 108-127) for one
column. The date column is coerced per value by
`to_datetime(..., errors='coerce')`; every other column tries
`to_numeric(..., downcast='integer')`, then `to_numeric(..., downcast='float')`,
then falls back to `astype(str)`. -/
def correct_column (name : String) (col : List Value) : List Value :=
  if name = "delivery_date" then col.map to_datetime_one
  else
    match to_numeric Downcast.integer col with
    | some r => r
    | none =>
      match to_numeric Downcast.float col with
      | some r => r
      | none => astype_str col

/-- `truncate_text` (src/main.py lines 129-132): crop a string cell longer
than `max_len` and append the ellipsis marker; return any other value (and
any short enough string) unchanged. -/
def truncate_text (text : Value) (max_len : ℕ) : Value :=
  match text with
  | Value.vStr s =>
    if max_len < strLen s then Value.vStr (strTake s max_len ++ "...")
    else Value.vStr s
  | v => v

/-- One typed sales record, with the columns selected in `main`
(src/main.py lines 340-344). -/
structure SalesRow where
  dealer_name : Value
  nomenclature : Value
  brand : Value
  total_power_mw : Value
  pcs_container : Value
  nomen_group_parent : Value
  quantity_register_uom : Value
  register_uom : Value
  total_final_price_czk : Value
  gross_margin_czk : Value
  delivery_date : Value
deriving DecidableEq

/-- A sales record after the window filters drop `delivery_date`. -/
structure SalesRowND where
  dealer_name : Value
  nomenclature : Value
  brand : Value
  total_power_mw : Value
  pcs_container : Value
  nomen_group_parent : Value
  quantity_register_uom : Value
  register_uom : Value
  total_final_price_czk : Value
  gross_margin_czk : Value
deriving DecidableEq

/-- `df.drop(columns=['delivery_date'])`, applied rowwise. -/
def dropDeliveryDate (r : SalesRow) : SalesRowND :=
  { dealer_name := r.dealer_name, nomenclature := r.nomenclature,
    brand := r.brand, total_power_mw := r.total_power_mw,
    pcs_container := r.pcs_container,
    nomen_group_parent := r.nomen_group_parent,
    quantity_register_uom := r.quantity_register_uom,
    register_uom := r.register_uom,
    total_final_price_czk := r.total_final_price_czk,
    gross_margin_czk := r.gross_margin_czk }

/-- Lexicographic order on timestamps (year, month, day, time of day). -/
def dtLe (a b : DateTime) : Bool :=
  decide (a.year < b.year ∨ (a.year = b.year ∧
    (a.month < b.month ∨ (a.month = b.month ∧
      (a.day < b.day ∨ (a.day = b.day ∧ a.time ≤ b.time))))))

/-- `mtd_sales_per_dealer` (src/main.py lines 89-97). The function reads
the clock itself (`datetime.now()`, line 90), so the embedding takes the
instant it observes as the parameter `current_date`. Note
`current_date.replace(day=1)` keeps the time of day. Rows whose
`delivery_date` is not a comparable timestamp (NaT) are excluded, matching
pandas comparison semantics. -/
def mtd_sales_per_dealer (current_date : DateTime) (df : List SalesRow) :
    List SalesRowND :=
  (df.filter (fun r =>
    match r.delivery_date with
    | Value.vDate d =>
      dtLe { current_date with day := 1 } d && dtLe d current_date
    | _ => false)).map dropDeliveryDate

/-- `ytd_sales_per_dealer` (src/main.py lines 100-106). It performs its own
`datetime.now()` call (line 101), distinct from the one in
`mtd_sales_per_dealer`; the instant it observes is the parameter. `NaT`
rows are excluded (`dt.year` of NaT is missing). -/
def ytd_sales_per_dealer (current_date : DateTime) (df : List SalesRow) :
    List SalesRowND :=
  (df.filter (fun r =>
    match r.delivery_date with
    | Value.vDate d => decide (d.year = current_date.year)
    | _ => false)).map dropDeliveryDate

/-- Numeric interpretation of a cell for summation: pandas `sum` over a
numeric column adds the numbers and skips NaN. -/
def toQ : Value → ℚ
  | Value.vNum q => q
  | _ => 0

/-- pandas `Series.sum()` over a numeric column (`skipna` default). -/
def sumNum (vs : List Value) : ℚ := (vs.map toQ).sum

/-- The keys a pandas `groupby(key)` produces: the distinct non-missing
key values of the table. `dropna=True` (the default, in force at lines
142, 236 and 267) silently removes NaN/NaT keys. The iteration order of
the groups (pandas sorts them) is abstracted; no aggregate depends on it. -/
def group_keys (df : List SalesRowND) (key : SalesRowND → Value) : List Value :=
  ((df.map key).filter (fun v => !isNA v)).dedup

/-- One row of `df.groupby(key).agg({'quantity_register_uom': 'sum',
'total_final_price_czk': 'sum', 'gross_margin_czk': 'sum'})`. -/
structure AggRow where
  key : Value
  quantity : ℚ
  turnover : ℚ
  margin : ℚ
deriving DecidableEq

/-- The aggregate row for one group key: sums over the rows carrying that
key (lines 142-146 and 236-240). -/
def agg_for (df : List SalesRowND) (key : SalesRowND → Value) (k : Value) :
    AggRow :=
  { key := k,
    quantity := sumNum ((df.filter (fun r => decide (key r = k))).map
      (fun r => r.quantity_register_uom)),
    turnover := sumNum ((df.filter (fun r => decide (key r = k))).map
      (fun r => r.total_final_price_czk)),
    margin := sumNum ((df.filter (fun r => decide (key r = k))).map
      (fun r => r.gross_margin_czk)) }

/-- `df.groupby(key).agg({...}).reset_index()`: one `AggRow` per distinct
non-missing key. -/
def groupAgg (df : List SalesRowND) (key : SalesRowND → Value) : List AggRow :=
  (group_keys df key).map (agg_for df key)

/-- A displayed summary row: rounded turnover and margin (ints after
`.round(0).astype(int)`) plus the derived margin percent. -/
structure SummaryRow where
  key : Value
  quantity : ℚ
  turnover : ℤ
  margin : ℤ
  margin_percent : FloatVal
deriving DecidableEq

/-- Product-group summary row (src/main.py lines 142-152): the turnover
and margin sums are rounded to ints first (lines 148-149), and
`margin_percent` is then computed from the *rounded* columns (line 152),
with no zero-guard on the division. -/
def mk_summary (a : AggRow) : SummaryRow :=
  { key := a.key, quantity := a.quantity,
    turnover := bround a.turnover, margin := bround a.margin,
    margin_percent := froundTo2 (times100
      (fdiv ((bround a.margin : ℤ) : ℚ) ((bround a.turnover : ℤ) : ℚ))) }

/-- The product-group summary table `summary_df` (grouped by
`nomen_group_parent`). -/
def summary_df (df : List SalesRowND) : List SummaryRow :=
  (groupAgg df (fun r => r.nomen_group_parent)).map mk_summary

/-- Dealer summary row (src/main.py lines 236-245): here `margin_percent`
is computed first, from the *unrounded* sums (line 241), and the turnover
and margin columns are rounded afterwards (lines 244-245). No zero-guard
on the division. -/
def mk_dealer (a : AggRow) : SummaryRow :=
  { key := a.key, quantity := a.quantity,
    turnover := bround a.turnover, margin := bround a.margin,
    margin_percent := froundTo2 (times100 (fdiv a.margin a.turnover)) }

/-- The dealer summary table `dealer_summary_df` (grouped by
`dealer_name`). -/
def dealer_summary_df (df : List SalesRowND) : List SummaryRow :=
  (groupAgg df (fun r => r.dealer_name)).map mk_dealer

/-- `total_turnover` (line 186): table-wide sum, rounded to an int. -/
def total_turnover (df : List SalesRowND) : ℤ :=
  bround (sumNum (df.map (fun r => r.total_final_price_czk)))

/-- `total_margin` (line 187). -/
def total_margin (df : List SalesRowND) : ℤ :=
  bround (sumNum (df.map (fun r => r.gross_margin_czk)))

/-- `avg_margin` (line 188): unlike the groupby ratios, the table-wide
average margin has an explicit truthiness zero-guard
(`... if total_turnover else 0`). -/
def avg_margin (df : List SalesRowND) : ℚ :=
  if total_turnover df ≠ 0 then
    ((total_margin df : ℤ) : ℚ) / ((total_turnover df : ℤ) : ℚ) * 100
  else 0

/-- The per-record `container` derivation (src/main.py lines 272-278):
`round(q / p, 2)` when both operands are non-missing and `p != 0`, else
`0`. `none` models the TypeError Python would raise if a non-missing,
non-zero operand were not numeric (a string-typed column); no division
error is possible because of the `p != 0` conjunct. -/
def container_of (q p : Value) : Option Value :=
  if isNA q = false ∧ isNA p = false ∧ p ≠ Value.vNum 0 then
    match q, p with
    | Value.vNum a, Value.vNum b => some (Value.vNum (round2q (a / b)))
    | _, _ => none
  else some (Value.vNum 0)

/-- The raw (pre-truncation) cells of one detail-table line, in the column
order of lines 282-286: nomenclature, brand, total power, the derived
container, quantity, turnover, margin. -/
def detail_row (r : SalesRowND) : Option (List Value) :=
  (container_of r.quantity_register_uom r.pcs_container).map (fun c =>
    [r.nomenclature, r.brand, r.total_power_mw, c,
     r.quantity_register_uom, r.total_final_price_czk, r.gross_margin_czk])

/-- `max_lengths` (line 289): per-column truncation limits. -/
def max_lengths : List ℕ := [20, 20, 10, 10, 10, 15, 10]

/-- The header line of each dealer detail table (lines 282-283). -/
def header_row : List Value :=
  [Value.vStr "Nomenclature", Value.vStr "Brand",
   Value.vStr "Total Power (MW)", Value.vStr "Container",
   Value.vStr "Quantity", Value.vStr "Turnover", Value.vStr "Margin"]

/-- Line 290: every cell (header included) is passed through
`truncate_text(str(item), max_len)` with its column's limit. -/
def truncate_row (row : List Value) : List Value :=
  (row.zip max_lengths).map (fun p =>
    truncate_text (Value.vStr (pyStr p.1)) p.2)

/-- The per-dealer detail section (src/main.py lines 267-291): one
`(dealer key, table data)` pair per group of `df.groupby('dealer_name')`
(NaN dealers dropped by pandas), each table being the truncated header
followed by one truncated line per record. -/
def dealer_detail (df : List SalesRowND) :
    Option (List (Value × List (List Value))) :=
  (group_keys df (fun r => r.dealer_name)).mapM (fun k => do
    let rows ← (df.filter (fun r => decide (r.dealer_name = k))).mapM detail_row
    pure (k, (header_row :: rows).map truncate_row))

/-- The data content of one generated PDF (`generate_pdf_report`,
src/main.py lines 134-312): the product-group summary, the report-level
totals, the dealer summary and the per-dealer detail tables. Layout and
styling are presentation only and are not modelled. -/
structure ReportDoc where
  summary : List SummaryRow
  totalTurnover : ℤ
  totalMargin : ℤ
  avgMargin : ℚ
  dealerSummary : List SummaryRow
  dealerTables : List (Value × List (List Value))
deriving DecidableEq

/-- `generate_pdf_report` on an already-filtered table; `none` models a
raised TypeError from the container lambda. -/
def generate_pdf_report (df : List SalesRowND) : Option ReportDoc :=
  (dealer_detail df).map (fun tables =>
    { summary := summary_df df,
      totalTurnover := total_turnover df,
      totalMargin := total_margin df,
      avgMargin := avg_margin df,
      dealerSummary := dealer_summary_df df,
      dealerTables := tables })

/-- The fixed column selection of `main` (src/main.py lines 340-344). -/
def columns_to_keep : List String :=
  ["dealer_name", "nomenclature", "brand", "total_power_mw",
   "pcs_container", "nomen_group_parent", "quantity_register_uom",
   "register_uom", "total_final_price_czk", "gross_margin_czk",
   "delivery_date"]

/-- The column set of `pd.DataFrame.from_dict(all_data)`: the union of the
row dictionaries' keys. An empty row sequence yields a frame with no
columns at all. -/
def columnsOf (data : List (List (String × Value))) : List String :=
  (data.foldr (fun row acc => row.map Prod.fst ++ acc) []).dedup

/-- Reading a field from one raw row record; a key absent from this row
(but present in another) is filled with NaN, as pandas does. -/
def lookupVal (row : List (String × Value)) (c : String) : Value :=
  match row.find? (fun p => decide (p.1 = c)) with
  | some p => p.2
  | none => Value.vNaN

/-- One raw column of the assembled frame. -/
def rawColumn (data : List (List (String × Value))) (c : String) :
    List Value :=
  data.map (fun row => lookupVal row c)

/-- The typed table after `correct_dtypes` and the column selection: each
of the eleven kept columns is coerced independently by `correct_column`
and the rows are re-assembled positionally. (The `dealer_name`
encode/decode round-trip on line 336 is the identity on strings and is not
modelled separately.) -/
def typed_df (data : List (List (String × Value))) : List SalesRow :=
  (List.range data.length).map (fun i =>
    { dealer_name :=
        (correct_column "dealer_name" (rawColumn data "dealer_name")).getD i Value.vNaN,
      nomenclature :=
        (correct_column "nomenclature" (rawColumn data "nomenclature")).getD i Value.vNaN,
      brand :=
        (correct_column "brand" (rawColumn data "brand")).getD i Value.vNaN,
      total_power_mw :=
        (correct_column "total_power_mw" (rawColumn data "total_power_mw")).getD i Value.vNaN,
      pcs_container :=
        (correct_column "pcs_container" (rawColumn data "pcs_container")).getD i Value.vNaN,
      nomen_group_parent :=
        (correct_column "nomen_group_parent" (rawColumn data "nomen_group_parent")).getD i Value.vNaN,
      quantity_register_uom :=
        (correct_column "quantity_register_uom" (rawColumn data "quantity_register_uom")).getD i Value.vNaN,
      register_uom :=
        (correct_column "register_uom" (rawColumn data "register_uom")).getD i Value.vNaN,
      total_final_price_czk :=
        (correct_column "total_final_price_czk" (rawColumn data "total_final_price_czk")).getD i Value.vNaN,
      gross_margin_czk :=
        (correct_column "gross_margin_czk" (rawColumn data "gross_margin_czk")).getD i Value.vNaN,
      delivery_date :=
        (correct_column "delivery_date" (rawColumn data "delivery_date")).getD i Value.vNaN })

/-- The two documents a run produces. -/
structure RunOutput where
  ytd : ReportDoc
  mtd : ReportDoc
deriving DecidableEq

/-- The core of `main` (src/main.py lines 335-352), from the raw row
records returned by the data-fetch collaborator to the two reports.
`nowY` and `nowM` are the instants observed by the two separate
`datetime.now()` calls (YTD is filtered first, line 348, then MTD, line
349; the MTD report is generated first, line 351). `Except.error` models
an uncaught Python exception aborting the run: in particular
`df['dealer_name']` on line 336 raises KeyError when the assembled frame
has no such column, which is exactly what happens when `all_data` is
empty. -/
def main_run (nowY nowM : DateTime)
    (all_data : List (List (String × Value))) : Except String RunOutput :=
  if "dealer_name" ∈ columnsOf all_data then
    if columns_to_keep.all (fun c => decide (c ∈ columnsOf all_data)) then
      match generate_pdf_report (mtd_sales_per_dealer nowM (typed_df all_data)) with
      | none => Except.error "TypeError in MTD report"
      | some m =>
        match generate_pdf_report (ytd_sales_per_dealer nowY (typed_df all_data)) with
        | none => Except.error "TypeError in YTD report"
        | some y => Except.ok { ytd := y, mtd := m }
    else Except.error "KeyError: report column missing"
  else Except.error "KeyError: dealer_name"

/-- Predicate used to state column-typing facts: is this cell a timestamp. -/
def isDateVal : Value → Bool
  | Value.vDate _ => true
  | _ => false

/-- A generic post-filter record used to build concrete tables: dealer
`"A"`, group `"G"`, all numeric fields `1`. -/
def baseRow : SalesRowND :=
  { dealer_name := Value.vStr "A", nomenclature := Value.vStr "n",
    brand := Value.vStr "b", total_power_mw := Value.vNum 1,
    pcs_container := Value.vNum 1, nomen_group_parent := Value.vStr "G",
    quantity_register_uom := Value.vNum 1, register_uom := Value.vStr "u",
    total_final_price_czk := Value.vNum 1, gross_margin_czk := Value.vNum 1 }

/-- A record whose turnover is 0 and margin 5 (group sums then divide 5 by 0). -/
def row1 : SalesRowND :=
  { baseRow with
      total_final_price_czk := Value.vNum 0
      gross_margin_czk := Value.vNum 5 }

/-- One-row table with zero turnover. -/
def exdf1 : List SalesRowND := [row1]

/-- The summary row the pipeline produces for `exdf1`. -/
def r1s : SummaryRow :=
  { key := Value.vStr "G", quantity := 1, turnover := 0, margin := 5,
    margin_percent := FloatVal.pinf }

/-- A date column holding one parseable and one unparseable value. -/
def exCol2 : List Value := [Value.vStr "15/01/2024", Value.vStr "xx"]

/-- A record with turnover `200.4` and margin `100`: rounding the sum
before or after the ratio gives different percentages. -/
def row7 : SalesRowND :=
  { baseRow with
      total_final_price_czk := Value.vNum (1002/5)
      gross_margin_czk := Value.vNum 100 }

/-- One-row table for the rounding-order experiment. -/
def exdf7 : List SalesRowND := [row7]

/-- The aggregate row the pipeline computes for `exdf7` (unrounded sums). -/
def agg7 : AggRow :=
  { key := Value.vStr "A", quantity := 1, turnover := 1002/5, margin := 100 }

/-- Dealer `"A"` with turnover `0.5`. -/
def row6a : SalesRowND :=
  { baseRow with total_final_price_czk := Value.vNum (1/2) }

/-- Dealer `"B"` with turnover `0.5`. -/
def row6b : SalesRowND :=
  { baseRow with
      dealer_name := Value.vStr "B"
      total_final_price_czk := Value.vNum (1/2) }

/-- Two dealers with half-unit turnovers: per-dealer rounding loses what
the table-wide rounding keeps. -/
def exdf6 : List SalesRowND := [row6a, row6b]

/-- A record whose product-group key is the number `1`. -/
def row8a : SalesRowND :=
  { baseRow with
      nomen_group_parent := Value.vNum 1
      total_final_price_czk := Value.vNum 10 }

/-- A record whose product-group key is missing (NaN, as a numeric-typed
key column coming out of `correct_dtypes` keeps it). -/
def row8b : SalesRowND :=
  { baseRow with
      nomen_group_parent := Value.vNaN
      total_final_price_czk := Value.vNum 20 }

/-- A table with one present and one missing grouping key. -/
def exdf8 : List SalesRowND := [row8a, row8b]

/-- A record whose margin is an 11-digit number (string form longer than
the margin column's `max_len` of 10) and whose `pcs_container` is 0. -/
def row5 : SalesRowND :=
  { baseRow with
      pcs_container := Value.vNum 0
      total_final_price_czk := Value.vNum 2
      gross_margin_czk := Value.vNum 12345678901 }

/-- One-row table for the detail-rendering experiment. -/
def exdf5 : List SalesRowND := [row5]

/-- Instant observed by the MTD filter's own `datetime.now()` call: just
after midnight on 1 January 2025. -/
def nowM3 : DateTime := { year := 2025, month := 1, day := 1, time := 1 }

/-- Instant observed by the YTD filter's own (earlier) `datetime.now()`
call: late on 31 December 2024. `main` filters YTD first (line 348), so
the YTD clock reading precedes the MTD one. -/
def nowY3 : DateTime := { year := 2024, month := 12, day := 31, time := 2 }

/-- A full (pre-filter) record delivered on 1 January 2025. -/
def row3 : SalesRow :=
  { dealer_name := Value.vStr "A", nomenclature := Value.vStr "n",
    brand := Value.vStr "b", total_power_mw := Value.vNum 1,
    pcs_container := Value.vNum 1, nomen_group_parent := Value.vStr "G",
    quantity_register_uom := Value.vNum 1, register_uom := Value.vStr "u",
    total_final_price_czk := Value.vNum 1, gross_margin_czk := Value.vNum 1,
    delivery_date := Value.vDate { year := 2025, month := 1, day := 1, time := 1 } }

/-- A reference instant inside 2024, for the same-year witness run. -/
def now24 : DateTime := { year := 2024, month := 5, day := 10, time := 0 }

/-- A record delivered on 5 May 2024. -/
def row324 : SalesRow :=
  { row3 with delivery_date := Value.vDate { year := 2024, month := 5, day := 5, time := 0 } }

/-- getD commutes with map when the default is the image of a default. -/
theorem list_getD_map {α β : Type} (l : List α) (f : α → β) (i : ℕ) (d : α) :
    (l.map f).getD i (f d) = f (l.getD i d) := by
  induction l generalizing i with
  | nil => simp
  | cons a t ih =>
    cases i with
    | zero => simp
    | succ n =>
      simp only [List.map_cons, List.getD_cons_succ]
      exact ih n

/-- Pointwise equal functions map lists equally. -/
theorem map_congr_mem {α β : Type} (l : List α) (f g : α → β)
    (h : ∀ a ∈ l, f a = g a) : l.map f = l.map g := by
  induction l with
  | nil => rfl
  | cons a t ih =>
    simp only [List.map_cons]
    rw [h a (List.mem_cons_self a t), ih (fun x hx => h x (List.mem_cons_of_mem a hx))]

/-- Summing a pointwise sum splits into two sums. -/
theorem sum_map_add_split {κ : Type} (l : List κ) (f g : κ → ℚ) :
    (l.map (fun k => f k + g k)).sum = (l.map f).sum + (l.map g).sum := by
  induction l with
  | nil => simp
  | cons a t ih =>
    simp [ih]
    ring

/-- An indicator summed over a list avoiding its support vanishes. -/
theorem sum_indicator_notmem {κ : Type} [DecidableEq κ] (ks : List κ) (x : κ)
    (c : ℚ) (hx : x ∉ ks) :
    (ks.map (fun k => if x = k then c else 0)).sum = 0 := by
  induction ks with
  | nil => simp
  | cons k t ih =>
    simp only [List.mem_cons, not_or] at hx
    simp [hx.1, ih hx.2]

/-- An indicator summed over a duplicate-free list containing its support
point contributes exactly once. -/
theorem sum_indicator_mem {κ : Type} [DecidableEq κ] (ks : List κ) (x : κ)
    (c : ℚ) (hnd : ks.Nodup) (hx : x ∈ ks) :
    (ks.map (fun k => if x = k then c else 0)).sum = c := by
  induction ks with
  | nil => cases hx
  | cons k t ih =>
    rcases List.mem_cons.mp hx with h | h
    · subst h
      have hxt : x ∉ t := (List.nodup_cons.mp hnd).1
      simp [sum_indicator_notmem t x c hxt]
    · have hk : x ≠ k := by
        intro e
        exact (List.nodup_cons.mp hnd).1 (e ▸ h)
      simp [hk, ih (List.nodup_cons.mp hnd).2 h]

/-- Partition identity: summing a function group by group, over a
duplicate-free key list that covers every record's key, equals summing it
over the whole table. -/
theorem sum_over_groups {α : Type} (key : α → Value) (f : α → ℚ)
    (ks : List Value) (hnd : ks.Nodup) :
    ∀ (l : List α), (∀ a ∈ l, key a ∈ ks) →
      (ks.map (fun k => ((l.filter (fun a => decide (key a = k))).map f).sum)).sum
        = (l.map f).sum := by
  intro l
  induction l with
  | nil =>
    intro _
    simp
  | cons a t ih =>
    intro hmem
    have hka : key a ∈ ks := hmem a (List.mem_cons_self a t)
    have ht : ∀ x ∈ t, key x ∈ ks := fun x hx => hmem x (List.mem_cons_of_mem a hx)
    have hstep :
        (ks.map (fun k => (((a :: t).filter (fun x => decide (key x = k))).map f).sum)).sum
          = (ks.map (fun k => (if key a = k then f a else 0)
              + ((t.filter (fun x => decide (key x = k))).map f).sum)).sum := by
      apply congrArg List.sum
      apply map_congr_mem
      intro k _
      by_cases h : key a = k
      · simp [List.filter_cons, h]
      · simp [List.filter_cons, h]
    rw [hstep, sum_map_add_split, sum_indicator_mem ks (key a) (f a) hnd hka, ih ht]
    simp

/-- Lexicographic timestamp order implies year order. -/
theorem dtLe_year_le (a b : DateTime) (h : dtLe a b = true) : a.year ≤ b.year := by
  rw [dtLe, decide_eq_true_eq] at h
  rcases h with h | ⟨h, _⟩
  · exact le_of_lt h
  · exact le_of_eq h

/-- C1 counterexample: on a table whose only product group has rounded
turnover 0 and margin 5, the pipeline's `margin_percent` is `+inf` (numpy
division by zero), not the `0` the claim requires. -/
theorem C1_cex :
    (summary_df exdf1).map (fun r => r.margin_percent) = [FloatVal.pinf]
    ∧ (summary_df exdf1).map (fun r => r.turnover) = [0]
    ∧ FloatVal.pinf ≠ FloatVal.fin 0 := by
  with_unfolding_all decide

/-- C1 (amended): every product-group summary row derives `margin_percent`
as `round(margin / turnover * 100, 2)` from its own rounded sums under
float semantics; the computation never raises, yielding a finite number
whenever the rounded turnover is nonzero, and `+inf`, `-inf` or NaN — not
`0` — when the rounded turnover is `0`. (The dealer summary derives its
percent from the unrounded sums; see the C7 theorems.) -/
theorem C1_margin_percent (df : List SalesRowND) (r : SummaryRow)
    (hr : r ∈ summary_df df) :
    r.margin_percent
        = froundTo2 (times100 (fdiv ((r.margin : ℤ) : ℚ) ((r.turnover : ℤ) : ℚ)))
    ∧ (r.turnover ≠ 0 → ∃ q, r.margin_percent = FloatVal.fin q)
    ∧ (r.turnover = 0 →
        r.margin_percent = FloatVal.pinf ∨ r.margin_percent = FloatVal.ninf
          ∨ r.margin_percent = FloatVal.nan) := by
  rw [summary_df, List.mem_map] at hr
  obtain ⟨a, _, rfl⟩ := hr
  refine ⟨rfl, ?_, ?_⟩
  · intro ht
    have ht' : ((bround a.turnover : ℤ) : ℚ) ≠ 0 := by
      exact_mod_cast ht
    show ∃ q, froundTo2 (times100 (fdiv ((bround a.margin : ℤ) : ℚ)
        ((bround a.turnover : ℤ) : ℚ))) = FloatVal.fin q
    rw [fdiv, if_pos ht']
    exact ⟨_, rfl⟩
  · intro ht
    have ht' : ((bround a.turnover : ℤ) : ℚ) = 0 := by
      exact_mod_cast ht
    show froundTo2 (times100 (fdiv ((bround a.margin : ℤ) : ℚ)
        ((bround a.turnover : ℤ) : ℚ))) = FloatVal.pinf
      ∨ froundTo2 (times100 (fdiv ((bround a.margin : ℤ) : ℚ)
        ((bround a.turnover : ℤ) : ℚ))) = FloatVal.ninf
      ∨ froundTo2 (times100 (fdiv ((bround a.margin : ℤ) : ℚ)
        ((bround a.turnover : ℤ) : ℚ))) = FloatVal.nan
    rw [fdiv, if_neg (by simp [ht'])]
    rcases lt_trichotomy ((bround a.margin : ℤ) : ℚ) 0 with hm | hm | hm
    · right; left
      rw [if_neg (by linarith), if_pos hm]
      rfl
    · right; right
      rw [if_neg (by simp [hm]), if_neg (by simp [hm])]
      rfl
    · left
      rw [if_pos hm]
      rfl

/-- C1 witness: `C1_margin_percent` applied to the concrete zero-turnover
table `exdf1` and its summary row. -/
theorem C1_witness :
    r1s.margin_percent = FloatVal.pinf ∨ r1s.margin_percent = FloatVal.ninf
      ∨ r1s.margin_percent = FloatVal.nan :=
  (C1_margin_percent exdf1 r1s (by with_unfolding_all decide)).2.2 rfl

/-- C2 counterexample: a date column with one parseable and one
unparseable value is partially parsed — the good value becomes a
timestamp while the bad one becomes NaT — so the result is neither
all-dates nor the verbatim strings the claim requires. -/
theorem C2_cex :
    correct_column "delivery_date" exCol2
      = [Value.vDate { year := 2024, month := 1, day := 15, time := 0 }, Value.vNaT]
    ∧ ¬((correct_column "delivery_date" exCol2).all isDateVal = true
        ∨ correct_column "delivery_date" exCol2 = exCol2) := by
  with_unfolding_all decide

/-- C2 (amended): date-column coercion is per value, not all-or-nothing —
with `errors='coerce'` each cell independently becomes its parsed
timestamp or NaT, so a mixed column is partially parsed and the
column-wide string fallback is never taken. -/
theorem C2_date_coercion (col : List Value) (i : ℕ) :
    (correct_column "delivery_date" col).getD i Value.vNaT
      = to_datetime_one (col.getD i Value.vNaT) := by
  have hc : correct_column "delivery_date" col = col.map to_datetime_one := by
    simp [correct_column]
  rw [hc]
  exact list_getD_map col to_datetime_one i Value.vNaT

/-- C3 counterexample: the two filters read the clock separately (lines 90
and 101; YTD is filtered first in `main`). With the YTD reading late on
31 Dec 2024 and the MTD reading just after midnight on 1 Jan 2025, a
record delivered on 1 Jan 2025 is in the MTD set but not in the YTD set,
so MTD is not a subset of YTD. -/
theorem C3_cex :
    dropDeliveryDate row3 ∈ mtd_sales_per_dealer nowM3 [row3]
    ∧ dropDeliveryDate row3 ∉ ytd_sales_per_dealer nowY3 [row3] := by
  with_unfolding_all decide

/-- C3 (amended): each window filter evaluates `datetime.now()` itself, so
the reference instants can differ; whenever the two observed instants lie
in the same calendar year, every record of the MTD table is in the YTD
table. -/
theorem C3_mtd_subset_ytd (nM nY : DateTime) (df : List SalesRow)
    (hy : nM.year = nY.year) :
    ∀ r ∈ mtd_sales_per_dealer nM df, r ∈ ytd_sales_per_dealer nY df := by
  intro r hr
  rw [mtd_sales_per_dealer, List.mem_map] at hr
  obtain ⟨s, hs, hdrop⟩ := hr
  rw [List.mem_filter] at hs
  obtain ⟨hsdf, hpred⟩ := hs
  rw [ytd_sales_per_dealer, List.mem_map]
  refine ⟨s, ?_, hdrop⟩
  rw [List.mem_filter]
  refine ⟨hsdf, ?_⟩
  cases hdd : s.delivery_date with
  | vDate d =>
    rw [hdd] at hpred
    rw [Bool.and_eq_true] at hpred
    have h1 := dtLe_year_le _ _ hpred.1
    have h2 := dtLe_year_le _ _ hpred.2
    have hdy : d.year = nM.year := le_antisymm h2 h1
    simp only [hdd]
    rw [decide_eq_true_eq]
    rw [hdy, hy]
  | vStr s0 =>
    rw [hdd] at hpred
    cases hpred
  | vNum q0 =>
    rw [hdd] at hpred
    cases hpred
  | vNaN =>
    rw [hdd] at hpred
    cases hpred
  | vNaT =>
    rw [hdd] at hpred
    cases hpred

/-- C3 witness: `C3_mtd_subset_ytd` applied to a run where both clock
readings are the same May 2024 instant and the record is in the MTD set. -/
theorem C3_witness :
    dropDeliveryDate row324 ∈ ytd_sales_per_dealer now24 [row324] :=
  C3_mtd_subset_ytd now24 now24 [row324] rfl (dropDeliveryDate row324)
    (by with_unfolding_all decide)

/-- C4: on an empty row sequence, the run does not complete —
`pd.DataFrame.from_dict([])` yields a frame with no columns, so the
`df['dealer_name']` access on line 336 raises KeyError before any report
is generated, whatever instants the two clock reads observe. -/
theorem C4_empty_input_keyerror (nY nM : DateTime) :
    main_run nY nM [] = Except.error "KeyError: dealer_name" := rfl

/-- C5 counterexample: in the rendered detail table for `exdf5`, the
numeric margin cell `12345678901` (11 characters, limit 10) is rendered
truncated with the ellipsis marker — numeric cells are not exempt, because
line 290 stringifies every cell before truncating (the header cell `Total
Power (MW)` is truncated too). -/
theorem C5_cex :
    dealer_detail exdf5
      = some [(Value.vStr "A",
          [[Value.vStr "Nomenclature", Value.vStr "Brand", Value.vStr "Total Powe...",
            Value.vStr "Container", Value.vStr "Quantity", Value.vStr "Turnover",
            Value.vStr "Margin"],
           [Value.vStr "n", Value.vStr "b", Value.vStr "1", Value.vStr "0",
            Value.vStr "1", Value.vStr "2", Value.vStr "1234567890..."]])]
    ∧ Value.vStr "1234567890..." ≠ Value.vStr (pyStr (Value.vNum 12345678901)) := by
  with_unfolding_all decide

/-- C5 (amended): every cell is first converted with `str()`; a text cell
longer than its column's limit is rendered as the first `max_len`
characters followed by the ellipsis marker and a text cell at or under the
limit is rendered unchanged — but the same rule applies to the string form
of numeric cells, which are therefore truncated as well when too long. -/
theorem C5_truncation (s : String) (ml : ℕ) :
    truncate_text (Value.vStr (pyStr (Value.vStr s))) ml
      = Value.vStr (if ml < strLen s then strTake s ml ++ "..." else s) := by
  show truncate_text (Value.vStr s) ml = _
  rw [truncate_text]
  by_cases h : ml < strLen s
  · rw [if_pos h, if_pos h]
  · rw [if_neg h, if_neg h]

/-- C6 counterexample: with two dealers of turnover `0.5` each, the
per-dealer rounded turnovers are `0` and `0` (half-to-even), summing to
`0`, while the table-wide rounded total is `round(1.0) = 1`. -/
theorem C6_cex :
    ((dealer_summary_df exdf6).map (fun r => r.turnover)).sum
      ≠ total_turnover exdf6 := by
  with_unfolding_all decide

/-- C6 (amended): for a non-empty table all of whose dealer keys are
non-missing, the sum of the per-dealer *unrounded* turnover aggregates
equals the table-wide unrounded turnover total; the equality of the
rounded figures fails in general because rounding is not additive. -/
theorem C6_turnover_partition (df : List SalesRowND) (_hne : df ≠ [])
    (hkeys : ∀ r ∈ df, isNA r.dealer_name = false) :
    ((groupAgg df (fun r => r.dealer_name)).map (fun g => g.turnover)).sum
      = sumNum (df.map (fun r => r.total_final_price_czk)) := by
  have hks : ∀ a ∈ df,
      (fun r : SalesRowND => r.dealer_name) a
        ∈ group_keys df (fun r => r.dealer_name) := by
    intro a ha
    rw [group_keys, List.mem_dedup, List.mem_filter]
    exact ⟨List.mem_map_of_mem _ ha, by simp [hkeys a ha]⟩
  have h := sum_over_groups (fun r : SalesRowND => r.dealer_name)
      (fun r => toQ r.total_final_price_czk)
      (group_keys df (fun r => r.dealer_name))
      (List.nodup_dedup _) df hks
  calc ((groupAgg df (fun r => r.dealer_name)).map (fun g => g.turnover)).sum
      = ((group_keys df (fun r => r.dealer_name)).map
          (fun k => ((df.filter (fun r => decide (r.dealer_name = k))).map
            (fun r => toQ r.total_final_price_czk)).sum)).sum := by
        rw [groupAgg, List.map_map]
        apply congrArg List.sum
        apply map_congr_mem
        intro k _
        show (agg_for df (fun r => r.dealer_name) k).turnover = _
        rw [agg_for]
        show sumNum ((df.filter (fun r => decide (r.dealer_name = k))).map
          (fun r => r.total_final_price_czk)) = _
        rw [sumNum, List.map_map]
        rfl
    _ = (df.map (fun r => toQ r.total_final_price_czk)).sum := h
    _ = sumNum (df.map (fun r => r.total_final_price_czk)) := by
        rw [sumNum, List.map_map]
        rfl

/-- C6 witness: `C6_turnover_partition` applied to the concrete two-dealer
table `exdf6`. -/
theorem C6_witness :
    ((groupAgg exdf6 (fun r => r.dealer_name)).map (fun g => g.turnover)).sum
      = sumNum (exdf6.map (fun r => r.total_final_price_czk)) :=
  C6_turnover_partition exdf6 (by with_unfolding_all decide)
    (by with_unfolding_all decide)

/-- C7 counterexample: for a dealer with turnover `200.4` and margin
`100`, the pipeline's dealer `margin_percent` is `49.9` (computed from the
unrounded sums), while computing it from the displayed rounded sums
(`100 / 200`) would give `50.0` — so the dealer granularity does not use
the rounded sums. -/
theorem C7_cex :
    (dealer_summary_df exdf7).map (fun r => r.margin_percent) = [FloatVal.fin (499/10)]
    ∧ (dealer_summary_df exdf7).map (fun r => r.turnover) = [200]
    ∧ (dealer_summary_df exdf7).map (fun r => r.margin) = [100]
    ∧ froundTo2 (times100 (fdiv ((100 : ℤ) : ℚ) ((200 : ℤ) : ℚ))) = FloatVal.fin 50
    ∧ (499 / 10 : ℚ) ≠ 50 := by
  with_unfolding_all decide

/-- C7 (amended): the two granularities differ — every product-group
summary row derives `margin_percent` from its already-rounded sums, while
every dealer summary row derives it from the unrounded aggregate sums and
only rounds turnover and margin afterwards for display. -/
theorem C7_margin_percent_granularity (df : List SalesRowND) :
    (∀ r ∈ summary_df df,
       r.margin_percent
         = froundTo2 (times100 (fdiv ((r.margin : ℤ) : ℚ) ((r.turnover : ℤ) : ℚ))))
    ∧ (∀ a ∈ groupAgg df (fun r => r.dealer_name),
       ∃ r ∈ dealer_summary_df df, r.key = a.key ∧ r.turnover = bround a.turnover
         ∧ r.margin = bround a.margin
         ∧ r.margin_percent = froundTo2 (times100 (fdiv a.margin a.turnover))) := by
  constructor
  · intro r hr
    rw [summary_df, List.mem_map] at hr
    obtain ⟨a, _, rfl⟩ := hr
    rfl
  · intro a ha
    exact ⟨mk_dealer a, List.mem_map_of_mem _ ha, rfl, rfl, rfl, rfl⟩

/-- C7 witness: `C7_margin_percent_granularity` applied to `exdf7` and its
aggregate row (turnover `200.4`, margin `100`). -/
theorem C7_witness :
    ∃ r ∈ dealer_summary_df exdf7, r.key = agg7.key ∧ r.turnover = bround agg7.turnover
      ∧ r.margin = bround agg7.margin
      ∧ r.margin_percent = froundTo2 (times100 (fdiv agg7.margin agg7.turnover)) :=
  (C7_margin_percent_granularity exdf7).2 agg7 (by with_unfolding_all decide)

/-- C8 counterexample: in `exdf8` one row's grouping key is missing (NaN);
the aggregation produces a single group, keyed `1`, whose turnover is
`10`, while the table's turnover is `30` — the missing-key row is in no
aggregate row, i.e. it is silently dropped rather than grouped under a
missing-value key. -/
theorem C8_cex :
    (groupAgg exdf8 (fun r => r.nomen_group_parent)).map (fun g => g.key)
      = [Value.vNum 1]
    ∧ ((groupAgg exdf8 (fun r => r.nomen_group_parent)).map (fun g => g.turnover)).sum = 10
    ∧ sumNum (exdf8.map (fun r => r.total_final_price_czk)) = 30
    ∧ isNA row8b.nomen_group_parent = true := by
  with_unfolding_all decide

/-- C8 (amended): in both grouped aggregations a row with a *non-missing*
key contributes to exactly one aggregate row — one group per distinct key,
with no duplicates — but rows whose key is the missing marker are silently
dropped by pandas `groupby` (`dropna=True`): every produced group key is
non-missing. (When a key column falls back to strings in coercion, missing
values become the literal string `"nan"` and do form their own group.) -/
theorem C8_grouping_keys (df : List SalesRowND) (key : SalesRowND → Value) :
    (∀ g ∈ groupAgg df key, isNA g.key = false)
    ∧ (∀ r ∈ df, isNA (key r) = false → ∃ g ∈ groupAgg df key, g.key = key r)
    ∧ ((groupAgg df key).map (fun g => g.key)).Nodup := by
  have hkeys_eq : (groupAgg df key).map (fun g => g.key) = group_keys df key := by
    rw [groupAgg, List.map_map]
    have hcomp : ((fun g : AggRow => g.key) ∘ agg_for df key) = fun k => k := by
      funext k
      rfl
    rw [hcomp, List.map_id']
  refine ⟨?_, ?_, ?_⟩
  · intro g hg
    rw [groupAgg, List.mem_map] at hg
    obtain ⟨k, hk, rfl⟩ := hg
    rw [group_keys, List.mem_dedup, List.mem_filter] at hk
    have h2 : isNA k = false := by
      simpa using hk.2
    exact h2
  · intro r hr hna
    refine ⟨agg_for df key (key r), List.mem_map_of_mem _ ?_, rfl⟩
    rw [group_keys, List.mem_dedup, List.mem_filter]
    exact ⟨List.mem_map_of_mem _ hr, by simp [hna]⟩
  · rw [hkeys_eq]
    exact List.nodup_dedup _

/-- C8 witness: `C8_grouping_keys` applied to `exdf8` and its
non-missing-key row. -/
theorem C8_witness :
    ∃ g ∈ groupAgg exdf8 (fun r => r.nomen_group_parent),
      g.key = row8a.nomen_group_parent :=
  (C8_grouping_keys exdf8 (fun r => r.nomen_group_parent)).2.1 row8a
    (by with_unfolding_all decide) (by with_unfolding_all decide)

/-- C9: the derived container value equals `round(q / p, 2)` when both
operands are present numbers and `p ≠ 0`, and is `0` whenever either
operand is missing (NaN or NaT, which is also what an absent field becomes)
or `p = 0`; the zero-guard makes a division error impossible. -/
theorem C9_container_rule (a b : ℚ) (q p : Value) :
    container_of (Value.vNum a) (Value.vNum b)
        = some (Value.vNum (if b = 0 then 0 else round2q (a / b)))
    ∧ container_of q Value.vNaN = some (Value.vNum 0)
    ∧ container_of Value.vNaN p = some (Value.vNum 0) := by
  refine ⟨?_, ?_, ?_⟩
  · by_cases hb : b = 0
    · subst hb
      simp [container_of, isNA]
    · simp [container_of, isNA, hb]
  · simp [container_of, isNA]
  · simp [container_of, isNA]

/-- C10: the float attempt of the numeric fallback chain is unreachable as
a distinct fallback — `to_numeric` raises independently of the `downcast`
argument (which only narrows the storage dtype after a successful
conversion), so for every non-date column the chain resolves either by the
first numeric attempt or by the string fallback, never by the float
branch. -/
theorem C10_numeric_fallback (col : List Value) (name : String)
    (h : name ≠ "delivery_date") :
    (to_numeric Downcast.integer col = none ↔ to_numeric Downcast.float col = none)
    ∧ correct_column name col
        = (match to_numeric Downcast.integer col with
           | some r => r
           | none => astype_str col) := by
  constructor
  · exact Iff.rfl
  · rw [correct_column, if_neg h]
    cases hc : to_numeric Downcast.integer col with
    | some r => rfl
    | none =>
      have hf : to_numeric Downcast.float col = none := hc
      rw [hf]

/-- C10 witness: `C10_numeric_fallback` applied to the non-date column
`brand` holding the non-numeric string `"abc"`. -/
theorem C10_witness :
    (to_numeric Downcast.integer [Value.vStr "abc"] = none
      ↔ to_numeric Downcast.float [Value.vStr "abc"] = none)
    ∧ correct_column "brand" [Value.vStr "abc"]
        = (match to_numeric Downcast.integer [Value.vStr "abc"] with
           | some r => r
           | none => astype_str [Value.vStr "abc"]) :=
  C10_numeric_fallback [Value.vStr "abc"] "brand" (by decide)
